import Mathlib

/-!
Shallow embedding of the SSL certificate expiry checker
(`src/ssl-cert-checker/checker.py`).

Time instants are modelled as integer numbers of seconds (UTC); a
`datetime` difference `dt - now` becomes integer subtraction, and Python's
`timedelta.days` (the floor of the duration in whole days) becomes
`Int.fdiv` by 86400.  Network and webhook effects are modelled by explicit
parameters: the outcome of `get_certificate_notAfter` is an
`Except String Int` (error message, or the certificate's `notAfter`
instant) and the outcome of `send_slack` is a `Bool` (`true` means the
POST succeeded, `false` means it raised).
-/

/-- Status strings produced by `check_site`: 'OK', 'WARNING', 'ERROR', 'EXPIRED'. -/
inductive Status where
  | OK
  | WARNING
  | ERROR
  | EXPIRED
deriving DecidableEq, Repr

/-- Printable form of a status, matching the Python string literals. -/
def Status.text : Status → String
  | .OK => "OK"
  | .WARNING => "WARNING"
  | .ERROR => "ERROR"
  | .EXPIRED => "EXPIRED"

/-- Severity tier of a status in the order OK < WARNING < ERROR ≈ EXPIRED;
ERROR and EXPIRED share the top tier (same exit code, same alerting). -/
def severity : Status → Nat
  | .OK => 0
  | .WARNING => 1
  | .ERROR => 2
  | .EXPIRED => 2

/-- The thresholds dictionary: the keys `warning_days` and `error_days` may
be absent, in which case `check_site` reads them via `.get` with defaults
30 and 7. -/
structure Thresholds where
  warning_days : Option Int
  error_days : Option Int
deriving DecidableEq, Repr

/-- One `sites` entry: a dictionary with a `host`, an optional `port`
(read with default 443) and an optional `name` (the label defaults to the
host). -/
structure Entry where
  host : String
  port : Option Int
  name : Option String
deriving DecidableEq, Repr

/-- Embeds `days_until`: Python's `timedelta.days` is the floor of the
duration in whole days, that is floor division of the difference in
seconds by 86400.  The current time is passed explicitly. -/
def days_until (dt now : Int) : Int :=
  (dt - now).fdiv 86400

/-- Embeds the status computation inside `check_site` (`status = 'OK'`
followed by the `if days < 0` / `elif days <= error_days` /
`elif days <= warning_days` chain, with the dictionary defaults 7 and 30). -/
def classifyStatus (days : Int) (thresholds : Thresholds) : Status :=
  if days < 0 then .EXPIRED
  else if days ≤ thresholds.error_days.getD 7 then .ERROR
  else if days ≤ thresholds.warning_days.getD 30 then .WARNING
  else .OK

/-- Observable outcome of one `check_site` call: the returned
`(label, status, days)` triple, the lines printed to stdout and to stderr,
and the number of Slack POSTs attempted. -/
structure CheckOutcome where
  result : String × Status × Int
  stdoutLines : List String
  stderrLines : List String
  slackAttempts : Nat
deriving DecidableEq, Repr

/-- Embeds `check_site`.  The fetch outcome (the call to
`get_certificate_notAfter`) and the Slack outcome (whether `send_slack`
raises) are explicit inputs.  The function is total: every exception of
the source is caught inside `check_site` itself, so the embedding always
returns a `CheckOutcome`. -/
def check_site (entry : Entry) (thresholds : Thresholds)
    (slack_webhook : Option String) (now : Int)
    (fetch : Except String Int) (slackOk : Bool) : CheckOutcome :=
  let host := entry.host
  let port := entry.port.getD 443
  let label := entry.name.getD host
  match fetch with
  | .ok exp =>
      let days := days_until exp now
      let status := classifyStatus days thresholds
      let message := label ++ " (" ++ host ++ ":" ++ toString port
        ++ ") -> Expires: " ++ toString exp ++ " UTC (" ++ toString days
        ++ " days) [" ++ status.text ++ "]"
      let wantAlert := slack_webhook.isSome
        && (status == .WARNING || status == .ERROR || status == .EXPIRED)
      { result := (label, status, days)
        stdoutLines := [message]
        stderrLines :=
          if wantAlert && !slackOk then ["Failed to send Slack alert"] else []
        slackAttempts := if wantAlert then 1 else 0 }
  | .error e =>
      let err_msg := label ++ " (" ++ host ++ ":" ++ toString port
        ++ ") -> ERROR retrieving certificate: " ++ e
      { result := (label, .ERROR, -9999)
        stdoutLines := []
        stderrLines := [err_msg]
        slackAttempts := if slack_webhook.isSome then 1 else 0 }

/-- Embeds the exit-code aggregation in `main`: collect the set of statuses
over all results and reduce by precedence (2 if ERROR or EXPIRED present,
else 1 if WARNING present, else 0). -/
def computeExitCode (results : List (String × Status × Int)) : Nat :=
  let codes := results.map (fun r => r.2.1)
  if codes.contains Status.ERROR || codes.contains Status.EXPIRED then 2
  else if codes.contains Status.WARNING then 1
  else 0

/-- Embeds the fan-out/fan-in in `main`: one `check_site` task per site,
with results appended in completion order.  `as_completed` yields every
submitted future exactly once in some order, so the completion order is an
explicit input — a reordering of the submitted sites; `fetches` and
`slackOutcome` give each site's I/O outcomes. -/
def runChecks (completionOrder : List Entry) (thresholds : Thresholds)
    (slack_webhook : Option String) (now : Int)
    (fetches : Entry → Except String Int)
    (slackOutcome : Entry → Bool) : List (String × Status × Int) :=
  completionOrder.map fun site =>
    (check_site site thresholds slack_webhook now (fetches site)
      (slackOutcome site)).result

/-- Written from the spec's words (section 4.2), for comparison with
`classifyStatus`: first-match classification over explicit thresholds `e`
(error days) and `w` (warning days). -/
def specClassify (days e w : Int) : Status :=
  if days < 0 then .EXPIRED
  else if days ≤ e then .ERROR
  else if days ≤ w then .WARNING
  else .OK

/-- Floor bounds of the day count: `86400 * q ≤ dt - now < 86400 * (q + 1)`
where `q = days_until dt now`. -/
theorem days_until_bounds (dt now : Int) :
    86400 * days_until dt now ≤ dt - now ∧
      dt - now < 86400 * (days_until dt now + 1) := by
  unfold days_until
  rw [Int.fdiv_eq_ediv _ (by norm_num : (0 : Int) ≤ 86400)]
  have h1 := Int.ediv_add_emod (dt - now) 86400
  have h2 := Int.emod_nonneg (dt - now) (by norm_num : (86400 : Int) ≠ 0)
  have h3 := Int.emod_lt_of_pos (dt - now) (by norm_num : (0 : Int) < 86400)
  omega

/-- C1 counterexample: the thresholds `error_days = warning_days = -1`
satisfy `e ≤ w`, yet `days_remaining = e` is classified EXPIRED (the
`days < 0` branch fires first), not ERROR as the claim's boundary clause
states. -/
theorem C1_counterexample :
    (-1 : Int) ≤ -1
    ∧ classifyStatus (-1) ⟨some (-1), some (-1)⟩ = Status.EXPIRED
    ∧ classifyStatus (-1) ⟨some (-1), some (-1)⟩ ≠ Status.ERROR := by
  decide

/-- C1 (amended): for every successful check the status is computed from
`days_remaining` by first-match precedence in the spec's exact order with
defaults 7 and 30 (first conjunct, against `specClassify` written from the
spec); and for thresholds with `0 ≤ e ≤ w` the boundary values hold:
`days = e` is ERROR, `days = e + 1 ≤ w` is WARNING, `days = -1` is EXPIRED
regardless of thresholds, and `days = w + 1` is OK. -/
theorem C1_classification_order_and_boundaries
    (w e : Int) (hew : e ≤ w) (he : 0 ≤ e) :
    (∀ (entry : Entry) (t : Thresholds) (wh : Option String)
        (now exp : Int) (b : Bool),
        (check_site entry t wh now (.ok exp) b).result.2.1
          = specClassify (days_until exp now)
              (t.error_days.getD 7) (t.warning_days.getD 30))
    ∧ classifyStatus e ⟨some w, some e⟩ = .ERROR
    ∧ (e + 1 ≤ w → classifyStatus (e + 1) ⟨some w, some e⟩ = .WARNING)
    ∧ (∀ t : Thresholds, classifyStatus (-1) t = .EXPIRED)
    ∧ classifyStatus (w + 1) ⟨some w, some e⟩ = .OK := by
  refine ⟨fun entry t wh now exp b => rfl, ?_, ?_, ?_, ?_⟩
  · simp only [classifyStatus, Option.getD_some]
    split_ifs <;> first | rfl | (exfalso; omega)
  · intro hw
    simp only [classifyStatus, Option.getD_some]
    split_ifs <;> first | rfl | (exfalso; omega)
  · intro t
    simp only [classifyStatus]
    split_ifs <;> first | rfl | (exfalso; omega)
  · simp only [classifyStatus, Option.getD_some]
    split_ifs <;> first | rfl | (exfalso; omega)

/-- C1 witness: the boundary values at the default thresholds `w = 30`,
`e = 7`. -/
theorem C1_classification_witness :
    classifyStatus 7 ⟨some 30, some 7⟩ = Status.ERROR
    ∧ classifyStatus 8 ⟨some 30, some 7⟩ = Status.WARNING
    ∧ classifyStatus (-1) ⟨some 30, some 7⟩ = Status.EXPIRED
    ∧ classifyStatus 31 ⟨some 30, some 7⟩ = Status.OK := by
  have h := C1_classification_order_and_boundaries 30 7 (by norm_num) (by norm_num)
  exact ⟨h.2.1, h.2.2.1 (by norm_num), h.2.2.2.1 ⟨some 30, some 7⟩, h.2.2.2.2⟩

/-- C4: for thresholds with `e ≤ w` (after defaults) the classification is
total — it always yields one of the four statuses — and monotone in the day
count: a lower `days_remaining` never yields a strictly less severe status
under OK < WARNING < ERROR ≈ EXPIRED. -/
theorem C4_total_and_monotone (t : Thresholds)
    (_h : t.error_days.getD 7 ≤ t.warning_days.getD 30)
    (d1 d2 : Int) (hd : d1 ≤ d2) :
    (classifyStatus d1 t = .OK ∨ classifyStatus d1 t = .WARNING
      ∨ classifyStatus d1 t = .ERROR ∨ classifyStatus d1 t = .EXPIRED)
    ∧ severity (classifyStatus d2 t) ≤ severity (classifyStatus d1 t) := by
  constructor
  · cases hc : classifyStatus d1 t <;> simp
  · simp only [classifyStatus]
    split_ifs <;> simp only [severity] <;> omega

/-- C4 witness: with default-like thresholds `(30, 7)`, day counts 5 and 20. -/
theorem C4_total_and_monotone_witness :
    (classifyStatus 5 ⟨some 30, some 7⟩ = .OK
      ∨ classifyStatus 5 ⟨some 30, some 7⟩ = .WARNING
      ∨ classifyStatus 5 ⟨some 30, some 7⟩ = .ERROR
      ∨ classifyStatus 5 ⟨some 30, some 7⟩ = .EXPIRED)
    ∧ severity (classifyStatus 20 ⟨some 30, some 7⟩)
        ≤ severity (classifyStatus 5 ⟨some 30, some 7⟩) :=
  C4_total_and_monotone ⟨some 30, some 7⟩ (by decide) 5 20 (by decide)

/-- C5: `days_remaining` is the floor of the duration in whole days — the
day count `q` satisfies `86400 q ≤ dt - now < 86400 (q + 1)`; a positive
duration strictly below one day (such as 0.9 days) yields 0, and a negative
duration yields a negative integer. -/
theorem C5_days_until_floor (dt now : Int) :
    (86400 * days_until dt now ≤ dt - now
      ∧ dt - now < 86400 * (days_until dt now + 1))
    ∧ (0 < dt - now → dt - now < 86400 → days_until dt now = 0)
    ∧ (dt < now → days_until dt now < 0) := by
  have h := days_until_bounds dt now
  refine ⟨h, fun h1 h2 => by omega, fun h1 => by omega⟩

/-- C5 witness: a duration of 0.9 days (77760 seconds) yields 0, and a
negative duration yields a negative day count. -/
theorem C5_days_until_floor_witness :
    days_until 77760 0 = 0 ∧ days_until 0 1 < 0 :=
  ⟨(C5_days_until_floor 77760 0).2.1 (by decide) (by decide),
    (C5_days_until_floor 0 1).2.2 (by decide)⟩

/-- C10: a successful check is EXPIRED iff the expiry instant is strictly
before now: `expiry ≥ now` gives a nonnegative day count (never EXPIRED),
while an expiry in the past, even by one second, gives `days ≤ -1` and is
always classified EXPIRED — a consequence of the floor-based day count. -/
theorem C10_expired_iff_past (now exp : Int) (t : Thresholds) :
    (now ≤ exp → 0 ≤ days_until exp now)
    ∧ (exp < now → days_until exp now ≤ -1)
    ∧ (classifyStatus (days_until exp now) t = .EXPIRED ↔ exp < now) := by
  have h := days_until_bounds exp now
  refine ⟨fun hle => by omega, fun hlt => by omega, ?_, ?_⟩
  · intro hE
    by_contra hnot
    have hge : ¬ days_until exp now < 0 := by omega
    simp only [classifyStatus, if_neg hge] at hE
    split_ifs at hE
  · intro hlt
    have hneg : days_until exp now < 0 := by omega
    simp [classifyStatus, hneg]

/-- C10 witness: a certificate expired by one second (expiry 0, now 1) has
day count -1 and is classified EXPIRED. -/
theorem C10_expired_iff_past_witness :
    days_until 0 1 ≤ -1
    ∧ classifyStatus (days_until 0 1) ⟨none, none⟩ = Status.EXPIRED := by
  have h := C10_expired_iff_past 1 0 ⟨none, none⟩
  exact ⟨h.2.1 (by decide), h.2.2.2 (by decide)⟩

/-- Membership form of the status test in `computeExitCode`: a status is in
the mapped status list iff some result carries it. -/
theorem codes_contains_iff (results : List (String × Status × Int)) (s : Status) :
    ((results.map fun r => r.2.1).contains s = true) ↔ ∃ r ∈ results, r.2.1 = s := by
  simp [List.mem_map]

/-- C2: the aggregated exit code is 2 if at least one result has status
ERROR or EXPIRED; otherwise 1 if at least one has WARNING; otherwise 0 —
only the statuses are inspected, never `days_remaining`. -/
theorem C2_exit_code_precedence (results : List (String × Status × Int)) :
    ((∃ r ∈ results, r.2.1 = Status.ERROR ∨ r.2.1 = Status.EXPIRED) →
        computeExitCode results = 2)
    ∧ ((∀ r ∈ results, r.2.1 ≠ Status.ERROR ∧ r.2.1 ≠ Status.EXPIRED) →
        (∃ r ∈ results, r.2.1 = Status.WARNING) →
        computeExitCode results = 1)
    ∧ ((∀ r ∈ results, r.2.1 ≠ Status.ERROR ∧ r.2.1 ≠ Status.EXPIRED
          ∧ r.2.1 ≠ Status.WARNING) →
        computeExitCode results = 0) := by
  refine ⟨?_, ?_, ?_⟩
  · rintro ⟨r, hr, hs | hs⟩
    · have h1 : (results.map fun r => r.2.1).contains Status.ERROR = true :=
        (codes_contains_iff results _).2 ⟨r, hr, hs⟩
      simp only [computeExitCode]
      rw [h1]
      rfl
    · have h1 : (results.map fun r => r.2.1).contains Status.EXPIRED = true :=
        (codes_contains_iff results _).2 ⟨r, hr, hs⟩
      simp only [computeExitCode]
      rw [h1, Bool.or_true]
      rfl
  · intro hall hex
    obtain ⟨r, hr, hs⟩ := hex
    have h1 : ¬ (results.map fun r => r.2.1).contains Status.ERROR = true := fun hc =>
      match (codes_contains_iff results _).1 hc with
      | ⟨r2, hr2, hs2⟩ => (hall r2 hr2).1 hs2
    have h2 : ¬ (results.map fun r => r.2.1).contains Status.EXPIRED = true := fun hc =>
      match (codes_contains_iff results _).1 hc with
      | ⟨r2, hr2, hs2⟩ => (hall r2 hr2).2 hs2
    have h3 : (results.map fun r => r.2.1).contains Status.WARNING = true :=
      (codes_contains_iff results _).2 ⟨r, hr, hs⟩
    rw [Bool.not_eq_true] at h1 h2
    simp only [computeExitCode]
    rw [h1, h2, h3, Bool.or_self]
    rfl
  · intro hall
    have h1 : ¬ (results.map fun r => r.2.1).contains Status.ERROR = true := fun hc =>
      match (codes_contains_iff results _).1 hc with
      | ⟨r2, hr2, hs2⟩ => (hall r2 hr2).1 hs2
    have h2 : ¬ (results.map fun r => r.2.1).contains Status.EXPIRED = true := fun hc =>
      match (codes_contains_iff results _).1 hc with
      | ⟨r2, hr2, hs2⟩ => (hall r2 hr2).2.1 hs2
    have h3 : ¬ (results.map fun r => r.2.1).contains Status.WARNING = true := fun hc =>
      match (codes_contains_iff results _).1 hc with
      | ⟨r2, hr2, hs2⟩ => (hall r2 hr2).2.2 hs2
    rw [Bool.not_eq_true] at h1 h2 h3
    simp only [computeExitCode]
    rw [h1, h2, h3, Bool.or_self]
    rfl

/-- C2 witness: a run with statuses OK, WARNING and ERROR aggregates to
exit code 2. -/
theorem C2_exit_code_precedence_witness :
    computeExitCode
      [("a", Status.OK, 45), ("b", Status.WARNING, 10), ("c", Status.ERROR, 5)]
      = 2 :=
  (C2_exit_code_precedence
      [("a", Status.OK, 45), ("b", Status.WARNING, 10), ("c", Status.ERROR, 5)]).1
    ⟨("c", Status.ERROR, 5), by decide, Or.inl rfl⟩

/-- C3: `check_site` is total in the embedding (every exception of the
source is caught inside it), and on every fetch failure it returns the
triple `(label, ERROR, -9999)`, prints nothing to stdout, and prints
exactly the error line to the error stream — so a failing endpoint
produces an ordinary result instead of aborting anything. -/
theorem C3_fetch_failure_isolated (entry : Entry) (t : Thresholds)
    (wh : Option String) (now : Int) (e : String) (b : Bool) :
    (check_site entry t wh now (.error e) b).result
        = (entry.name.getD entry.host, Status.ERROR, -9999)
    ∧ (check_site entry t wh now (.error e) b).stdoutLines = []
    ∧ (check_site entry t wh now (.error e) b).stderrLines
        = [entry.name.getD entry.host ++ " (" ++ entry.host ++ ":"
            ++ toString (entry.port.getD 443)
            ++ ") -> ERROR retrieving certificate: " ++ e] :=
  ⟨rfl, rfl, rfl⟩

/-- C6 counterexample: the success path itself can produce the sentinel
value: a successfully retrieved certificate whose expiry precedes now by
exactly 9999 days yields `days_remaining = -9999`. -/
theorem C6_counterexample :
    (check_site ⟨"h", none, none⟩ ⟨none, none⟩ none (9999 * 86400)
        (.ok 0) true).result.2.2 = -9999 := by
  decide

/-- C6 (amended): the sentinel -9999 is out-of-band for every certificate
whose expiry is at most 9998 days in the past: on such inputs the success
path never produces `days_remaining = -9999`. -/
theorem C6_sentinel_out_of_band (entry : Entry) (t : Thresholds)
    (wh : Option String) (now exp : Int) (b : Bool)
    (h : now - exp ≤ 9998 * 86400) :
    (check_site entry t wh now (.ok exp) b).result.2.2 ≠ -9999 := by
  have hb := days_until_bounds exp now
  have hd : (check_site entry t wh now (.ok exp) b).result.2.2
      = days_until exp now := rfl
  rw [hd]
  omega

/-- C6 witness: a certificate expiring exactly now is nowhere near the
sentinel. -/
theorem C6_sentinel_out_of_band_witness :
    (check_site ⟨"h", none, none⟩ ⟨none, none⟩ none 0 (.ok 0) true).result.2.2
      ≠ -9999 :=
  C6_sentinel_out_of_band ⟨"h", none, none⟩ ⟨none, none⟩ none 0 0 true
    (by norm_num)

/-- C7: with a webhook configured, a successful check attempts no Slack
notification when the status is OK and exactly one when the status is
WARNING, ERROR or EXPIRED. -/
theorem C7_notification_gating (entry : Entry) (t : Thresholds)
    (url : String) (now exp : Int) (b : Bool) :
    (check_site entry t (some url) now (.ok exp) b).slackAttempts
      = if classifyStatus (days_until exp now) t = Status.OK then 0 else 1 := by
  cases hc : classifyStatus (days_until exp now) t <;>
    simp [check_site, hc]

/-- C8: the returned `(label, status, days)` triple of `check_site`, and
hence the aggregated exit code of a whole run, are identical whether the
notification calls succeed or fail — only the Slack outcome is varied
between the two runs. -/
theorem C8_notify_outcome_invisible (entry : Entry) (t : Thresholds)
    (wh : Option String) (now : Int) (fetch : Except String Int)
    (b1 b2 : Bool) (order : List Entry)
    (fetches : Entry → Except String Int) (s1 s2 : Entry → Bool) :
    (check_site entry t wh now fetch b1).result
        = (check_site entry t wh now fetch b2).result
    ∧ computeExitCode (runChecks order t wh now fetches s1)
        = computeExitCode (runChecks order t wh now fetches s2) := by
  constructor
  · cases fetch <;> rfl
  · have hruns : runChecks order t wh now fetches s1
        = runChecks order t wh now fetches s2 := by
      unfold runChecks
      refine List.map_congr_left fun site _ => ?_
      cases hf : fetches site <;> rfl
    rw [hruns]

/-- C9: the orchestrator collects exactly one result per submitted
endpoint: for every completion order (a permutation of the submitted
sites, as delivered by `as_completed`), the collected results have the
same length as the site list and are a permutation of the
submission-order results — no duplicates, no omissions. -/
theorem C9_one_result_per_endpoint (sites order : List Entry)
    (t : Thresholds) (wh : Option String) (now : Int)
    (fetches : Entry → Except String Int) (slackOutcome : Entry → Bool)
    (h : order.Perm sites) :
    (runChecks order t wh now fetches slackOutcome).length = sites.length
    ∧ (runChecks order t wh now fetches slackOutcome).Perm
        (runChecks sites t wh now fetches slackOutcome) := by
  constructor
  · simpa [runChecks] using h.length_eq
  · exact h.map _

/-- C9 witness: three sites completing in a different order than submitted
still give three results, a permutation of the submission-order results. -/
theorem C9_one_result_per_endpoint_witness :
    (runChecks [⟨"b", none, none⟩, ⟨"c", none, none⟩, ⟨"a", none, none⟩]
        ⟨none, none⟩ none 0 (fun _ => .ok 0) (fun _ => true)).length
      = ([⟨"a", none, none⟩, ⟨"b", none, none⟩, ⟨"c", none, none⟩] :
          List Entry).length
    ∧ (runChecks [⟨"b", none, none⟩, ⟨"c", none, none⟩, ⟨"a", none, none⟩]
        ⟨none, none⟩ none 0 (fun _ => .ok 0) (fun _ => true)).Perm
        (runChecks [⟨"a", none, none⟩, ⟨"b", none, none⟩, ⟨"c", none, none⟩]
          ⟨none, none⟩ none 0 (fun _ => .ok 0) (fun _ => true)) :=
  C9_one_result_per_endpoint
    [⟨"a", none, none⟩, ⟨"b", none, none⟩, ⟨"c", none, none⟩]
    [⟨"b", none, none⟩, ⟨"c", none, none⟩, ⟨"a", none, none⟩]
    ⟨none, none⟩ none 0 (fun _ => .ok 0) (fun _ => true) (by decide)
